import Mathlib

/-!
Verification development for the cli-helpers repository: a shallow embedding of the
console-rendering core of src/formatting_utils.py, src/drive_stuff/dsk.py and
src/file_manipulation/recycle.py, together with theorems settling the frozen claims.

Modelling conventions: Python floats are modelled as exact rationals (all values the
claims touch are exactly representable); Python ints as ℤ (or ℕ for byte counts);
Python strings as List Char (or String where only whole-string manipulation occurs);
Python floor division `//` as Int.fdiv; Python `int(float)` as truncation toward zero;
Python `round` as round-half-to-even; Python string repetition `s * n`, which yields ""
for n ≤ 0, via Int.toNat.
-/

set_option maxRecDepth 8000

/-- Python `int(x)` applied to a float: truncation toward zero. -/
def pyTrunc (q : ℚ) : ℤ := if 0 ≤ q then ⌊q⌋ else ⌈q⌉

/-- Python `round(x)` on a float: round half to even (banker's rounding). -/
def pyRound (q : ℚ) : ℤ :=
  let f := ⌊q⌋
  let r := q - (f : ℚ)
  if r < 1/2 then f
  else if 1/2 < r then f + 1
  else if f % 2 = 0 then f else f + 1

/-- Left-pad a numeral string with zeros to the given length (helper for decimal rendering). -/
def padZeros (s : String) (n : ℕ) : String := String.mk (List.replicate (n - s.length) '0') ++ s

/-- Python fixed-point float formatting `f"{x:.pf}"`, modelled on exact rationals: keep the
sign of the value, round the magnitude half-to-even at p decimal places, and print with
exactly p fractional digits (no decimal point when p = 0). -/
def pyFixed (q : ℚ) (p : ℕ) : String :=
  let sign := if q < 0 then "-" else ""
  let m := (pyRound (|q| * (10 : ℚ) ^ p)).toNat
  if p = 0 then sign ++ toString m
  else sign ++ toString (m / 10 ^ p) ++ "." ++ padZeros (toString (m % 10 ^ p)) p

/-- Python `f"{int(round(x))}"`: round half to even, print the integer. -/
def pyRoundedStr (q : ℚ) : String := toString (pyRound q)

/-- Python `str.rjust(n)` with the default space fill. -/
def pyRjust (s : String) (n : ℕ) : String := String.mk (List.replicate (n - s.length) ' ') ++ s

/-- colorama color constants: colorama emits the standard SGR escape sequences. -/
def FORE_RED : List Char := ("\x1b[31m").data

def FORE_GREEN : List Char := ("\x1b[32m").data

def FORE_YELLOW : List Char := ("\x1b[33m").data

def FORE_BLUE : List Char := ("\x1b[34m").data

def FORE_CYAN : List Char := ("\x1b[36m").data

def FORE_RESET : List Char := ("\x1b[39m").data

def FORE_LIGHTRED_EX : List Char := ("\x1b[91m").data

def FORE_LIGHTGREEN_EX : List Char := ("\x1b[92m").data

def FORE_LIGHTBLUE_EX : List Char := ("\x1b[94m").data

def FORE_LIGHTCYAN_EX : List Char := ("\x1b[96m").data

def STYLE_RESET_ALL : List Char := ("\x1b[0m").data

/-- Module constant SUCCESS_COLOR of src/formatting_utils.py (line 27). -/
def SUCCESS_COLOR : List Char := FORE_LIGHTGREEN_EX

/-- Module constant ERROR_COLOR of src/formatting_utils.py (line 28). -/
def ERROR_COLOR : List Char := FORE_LIGHTRED_EX

/-- Module constant INFO_COLOR of src/formatting_utils.py (line 29). -/
def INFO_COLOR : List Char := FORE_LIGHTCYAN_EX

/-- Module constant ACCENT_COLOR of src/formatting_utils.py (line 31). -/
def ACCENT_COLOR : List Char := FORE_LIGHTBLUE_EX

/-- Character class `[0-?]` (parameter bytes 0x30-0x3f) of the regex in dsk.get_visible_length. -/
def isParamByte (c : Char) : Bool := 0x30 ≤ c.toNat && c.toNat ≤ 0x3f

/-- Character class of intermediate bytes 0x20-0x2f (space through slash) of the regex in
dsk.get_visible_length. -/
def isIntermediateByte (c : Char) : Bool := 0x20 ≤ c.toNat && c.toNat ≤ 0x2f

/-- Character class `[@-~]` (final bytes 0x40-0x7e) of CSI sequences. -/
def isFinalByte (c : Char) : Bool := 0x40 ≤ c.toNat && c.toNat ≤ 0x7e

/-- Character class `[@-Z\\-_]` (0x40-0x5a and 0x5c-0x5f): the bytes that form a
two-character escape sequence in the regex of dsk.get_visible_length. -/
def isTwoCharEscByte (c : Char) : Bool :=
  (0x40 ≤ c.toNat && c.toNat ≤ 0x5a) || (0x5c ≤ c.toNat && c.toNat ≤ 0x5f)

/-- Character class `[0-9;]` of the regex in ConsoleFormatter.get_visible_length:
digits 0x30-0x39 or the semicolon. -/
def isDigitSemi (c : Char) : Bool := (0x30 ≤ c.toNat && c.toNat ≤ 0x39) || c = ';'

/-- One attempted regex match starting right after an ESC character: `run` returns the
input suffix that follows the matched escape sequence, or none when there is no match at
this position. The length bound is what makes the stripping scan terminate. -/
structure EscMatcher where
  run : List Char → Option (List Char)
  le : ∀ l r, run l = some r → r.length ≤ l.length

theorem dropWhile_length_le (p : Char → Bool) (l : List Char) :
    (l.dropWhile p).length ≤ l.length := by
  induction l with
  | nil => simp
  | cons c rest ih =>
    rw [List.dropWhile_cons]
    split
    · exact le_trans ih (by simp)
    · simp

/-- Match attempt for the regex used by dsk.get_visible_length (src/drive_stuff/dsk.py:190),
whose pattern is ESC followed by either a single byte in `[@-Z\\-_]`, or by a `[`, greedily
many parameter bytes `[0-?]`, greedily many intermediate bytes (0x20-0x2f), and one final
byte `[@-~]`. The three character classes are pairwise disjoint, so the greedy scan without
backtracking computes exactly what the regex engine matches. -/
def dskMatchFn : List Char → Option (List Char)
  | [] => none
  | c :: rest =>
    if isTwoCharEscByte c then some rest
    else if c = '[' then
      match (rest.dropWhile isParamByte).dropWhile isIntermediateByte with
      | f :: rest2 => if isFinalByte f then some rest2 else none
      | [] => none
    else none

theorem dskMatchFn_le : ∀ l r, dskMatchFn l = some r → r.length ≤ l.length := by
  intro l r h
  cases l with
  | nil => simp [dskMatchFn] at h
  | cons c rest =>
    simp only [dskMatchFn] at h
    by_cases h1 : isTwoCharEscByte c
    · rw [if_pos h1] at h
      cases h
      simp
    · rw [if_neg h1] at h
      by_cases h2 : c = '['
      · rw [if_pos h2] at h
        cases hm : (rest.dropWhile isParamByte).dropWhile isIntermediateByte with
        | nil => rw [hm] at h; cases h
        | cons f rest2 =>
          rw [hm] at h
          dsimp only at h
          by_cases h3 : isFinalByte f
          · rw [if_pos h3] at h
            cases h
            have hlen : (f :: r).length ≤ (rest.dropWhile isParamByte).length := by
              rw [← hm]; exact dropWhile_length_le _ _
            have hlen2 := dropWhile_length_le isParamByte rest
            simp only [List.length_cons] at hlen ⊢
            omega
          · rw [if_neg h3] at h; cases h
      · rw [if_neg h2] at h; cases h

/-- Match attempt for the bracketed patterns of ConsoleFormatter.get_visible_length and of
the spec's CSI contract: after the ESC, a literal `[`, greedily many digit/semicolon bytes,
then one byte accepted by `final`. Digits/semicolons are disjoint from every final byte the
two instantiations use, so the greedy scan is exact. -/
def bracketMatchFn (final : Char → Bool) : List Char → Option (List Char)
  | c :: rest =>
    if c = '[' then
      match rest.dropWhile isDigitSemi with
      | f :: rest2 => if final f then some rest2 else none
      | [] => none
    else none
  | [] => none

theorem bracketMatchFn_le (final : Char → Bool) :
    ∀ l r, bracketMatchFn final l = some r → r.length ≤ l.length := by
  intro l r h
  cases l with
  | nil => simp [bracketMatchFn] at h
  | cons c rest =>
    simp only [bracketMatchFn] at h
    by_cases h2 : c = '['
    · rw [if_pos h2] at h
      cases hm : rest.dropWhile isDigitSemi with
      | nil => rw [hm] at h; cases h
      | cons f rest2 =>
        rw [hm] at h
        dsimp only at h
        by_cases h3 : final f
        · rw [if_pos h3] at h
          cases h
          have hlen : (f :: r).length ≤ rest.length := by
            rw [← hm]; exact dropWhile_length_le _ _
          simp only [List.length_cons] at hlen ⊢
          omega
        · rw [if_neg h3] at h; cases h
    · rw [if_neg h2] at h; cases h

/-- The matcher of the regex in dsk.get_visible_length (and align_tree_info). -/
def dskMatcher : EscMatcher := ⟨dskMatchFn, dskMatchFn_le⟩

/-- The matcher of the regex `\033\[(?:[0-9;]+)*[mGK]` in ConsoleFormatter.get_visible_length
(src/formatting_utils.py:52); note `(?:[0-9;]+)*` accepts the same inputs as `[0-9;]*`. -/
def fuMatcher : EscMatcher :=
  ⟨bracketMatchFn (fun f => f = 'm' || f = 'G' || f = 'K'), bracketMatchFn_le _⟩

/-- Modelled from the spec (§4.1): matcher for "ANSI CSI sequences of the general form
`ESC [ <params> <final-byte>` where params are digits/semicolons and the final byte is in
the alphabetic/`@`-`~` range". Spec-side reference matcher for claim C4; no source function
implements exactly this. -/
def csiSpecMatcher : EscMatcher := ⟨bracketMatchFn isFinalByte, bracketMatchFn_le _⟩

/-- Fuel-indexed scan modelling `re.sub(pattern, '', text)` for patterns that start with an
ESC character: walk the text; at each ESC try the matcher and drop the matched escape
sequence, otherwise keep the character. `re.sub` substitutes non-overlapping matches
scanning left to right, which is exactly this recursion. Fuel at least the list length
makes the recursion structural; `stripEsc` instantiates the fuel with the length. -/
def stripEscGo (m : EscMatcher) : ℕ → List Char → List Char
  | 0, l => l
  | _ + 1, [] => []
  | fuel + 1, c :: rest =>
    if c = '\x1b' then
      match m.run rest with
      | some rest2 => stripEscGo m fuel rest2
      | none => c :: stripEscGo m fuel rest
    else c :: stripEscGo m fuel rest

/-- Strip every match of an ESC-headed pattern from a string, as `re.sub(pattern, '', s)`. -/
def stripEsc (m : EscMatcher) (l : List Char) : List Char := stripEscGo m l.length l

theorem stripEscGo_fuel (m : EscMatcher) : ∀ (f1 f2 : ℕ) (l : List Char),
    l.length ≤ f1 → l.length ≤ f2 → stripEscGo m f1 l = stripEscGo m f2 l := by
  intro f1
  induction f1 with
  | zero =>
    intro f2 l h1 _
    have hl : l = [] := List.eq_nil_of_length_eq_zero (Nat.le_zero.mp h1)
    subst hl
    cases f2 <;> rfl
  | succ g ih =>
    intro f2 l h1 h2
    cases l with
    | nil => cases f2 <;> rfl
    | cons c rest =>
      cases f2 with
      | zero => simp at h2
      | succ g2 =>
        simp only [List.length_cons, Nat.succ_le_succ_iff] at h1 h2
        simp only [stripEscGo]
        by_cases hc : c = '\x1b'
        · rw [if_pos hc, if_pos hc]
          cases hm : m.run rest with
          | some rest2 =>
            have hle := m.le rest rest2 hm
            exact ih g2 rest2 (le_trans hle h1) (le_trans hle h2)
          | none =>
            exact congrArg (c :: ·) (ih g2 rest h1 h2)
        · rw [if_neg hc, if_neg hc]
          exact congrArg (c :: ·) (ih g2 rest h1 h2)

theorem stripEsc_cons_other (m : EscMatcher) (c : Char) (l : List Char) (hc : c ≠ '\x1b') :
    stripEsc m (c :: l) = c :: stripEsc m l := by
  simp only [stripEsc, List.length_cons, stripEscGo, if_neg hc]

theorem stripEsc_cons_esc_some (m : EscMatcher) (l r : List Char) (h : m.run l = some r) :
    stripEsc m ('\x1b' :: l) = stripEsc m r := by
  simp only [stripEsc, List.length_cons, stripEscGo, if_pos rfl, h]
  exact stripEscGo_fuel m _ _ r (m.le l r h) (le_refl _)

theorem stripEsc_cons_esc_none (m : EscMatcher) (l : List Char) (h : m.run l = none) :
    stripEsc m ('\x1b' :: l) = '\x1b' :: stripEsc m l := by
  simp only [stripEsc, List.length_cons, stripEscGo, if_pos rfl, h]
  simp

namespace FormattingUtils

/-- Embeds ConsoleFormatter.get_visible_length (src/formatting_utils.py:48-55): the length
of the text after substituting every match of the mGK-final-byte pattern with the empty
string. -/
def get_visible_length (text : List Char) : ℕ := (stripEsc fuMatcher text).length

/-- Embeds ConsoleFormatter.center_with_ansi (src/formatting_utils.py:57-64) with the width
passed explicitly (the source defaults it to the detected console width). Python floor
division `//` is Int.fdiv; Python string repetition clamps negative counts to the empty
string, which Int.toNat captures. -/
def center_with_ansi (text : List Char) (width : ℤ) : List Char :=
  List.replicate ((Int.fdiv (width - (get_visible_length text : ℤ)) 2).toNat) ' ' ++ text

/-- Embeds ConsoleFormatter.get_progress_bar (src/formatting_utils.py:67-106):
`filled = int(width * percentage / 100)` followed by `fill * filled + empty * (width - filled)`.
Python `int()` truncates toward zero; string repetition yields the empty string for a
negative repeat count. -/
def get_progress_bar (percentage : ℚ) (width : ℤ) (fill : Char := '█')
    (empty : Char := '░') : List Char :=
  let filled := pyTrunc ((width : ℚ) * percentage / 100)
  List.replicate filled.toNat fill ++ List.replicate ((width - filled)).toNat empty

/-- Embeds the unit-scaling loop shared verbatim by ConsoleFormatter.format_size
(src/formatting_utils.py:162-166) and format_size_simple (lines 185-189): walk the unit
list, returning at the first unit where the running value is < 1024 and dividing the value
by 1024 otherwise; when the list is exhausted, render the (five-times-divided) value as PB.
The two callers differ only in how the number is rendered. -/
def scale_loop (render : ℚ → String) : ℚ → List String → String
  | size_bytes, [] => render size_bytes ++ " PB"
  | size_bytes, unit :: units =>
    if size_bytes < 1024 then render size_bytes ++ " " ++ unit
    else scale_loop render (size_bytes / 1024) units

/-- Embeds ConsoleFormatter.format_size (src/formatting_utils.py:138-166). -/
def format_size (size_bytes : ℚ) (precision : ℕ := 2) : String :=
  scale_loop (fun v => pyFixed v precision) size_bytes ["B", "KB", "MB", "GB", "TB"]

/-- Embeds ConsoleFormatter.format_size_simple (src/formatting_utils.py:168-189). -/
def format_size_simple (size_bytes : ℚ) : String :=
  scale_loop pyRoundedStr size_bytes ["B", "KB", "MB", "GB", "TB"]

/-- Embeds ConsoleFormatter.create_tree_line (src/formatting_utils.py:191-216): a
dictionary lookup of the branch symbol with default middle symbol, then
`f"{ERROR_COLOR}{symbol}{Style.RESET_ALL} {text}"`. -/
def create_tree_line (text : List Char) (line_type : String := "middle") : List Char :=
  let symbol :=
    if line_type = "first" then "├─"
    else if line_type = "middle" then "├─"
    else if line_type = "last" then "└─"
    else "├─"
  ERROR_COLOR ++ symbol.data ++ STYLE_RESET_ALL ++ (" ").data ++ text

end FormattingUtils

namespace Dsk

/-- Module constant PROGRESS_BAR_FILLED of src/drive_stuff/dsk.py (line 44). -/
def PROGRESS_BAR_FILLED : Char := '█'

/-- Module constant PROGRESS_BAR_EMPTY of src/drive_stuff/dsk.py (line 45). -/
def PROGRESS_BAR_EMPTY : Char := '░'

/-- Module constant DEFAULT_CONSOLE_WIDTH of src/drive_stuff/dsk.py (line 51). -/
def DEFAULT_CONSOLE_WIDTH : ℤ := 80

/-- Module constant CRITICAL_THRESHOLD of src/drive_stuff/dsk.py (line 54). -/
def CRITICAL_THRESHOLD : ℚ := 90

/-- Module constant WARNING_THRESHOLD of src/drive_stuff/dsk.py (line 55). -/
def WARNING_THRESHOLD : ℚ := 70

/-- Embeds bytes_to_gb (src/drive_stuff/dsk.py:124-139): `round(bytes_val / 1024 ** 3, 2)`,
with Python two-digit `round` modelled as round-half-to-even of 100x, divided by 100. -/
def bytes_to_gb (bytes_val : ℕ) : ℚ := (pyRound ((bytes_val : ℚ) / 1024 ^ 3 * 100) : ℚ) / 100

/-- Embeds get_progress_bar (src/drive_stuff/dsk.py:142-164): identical arithmetic to
ConsoleFormatter.get_progress_bar with the fill and empty glyphs fixed to the module
constants. -/
def get_progress_bar (percentage : ℚ) (width : ℤ := 20) : List Char :=
  let filled := pyTrunc ((width : ℚ) * percentage / 100)
  List.replicate filled.toNat PROGRESS_BAR_FILLED
    ++ List.replicate ((width - filled)).toNat PROGRESS_BAR_EMPTY

/-- Embeds get_visible_length (src/drive_stuff/dsk.py:167-191): the length after removing
every match of the full ANSI escape regex. -/
def get_visible_length (string : List Char) : ℕ := (stripEsc dskMatcher string).length

/-- Embeds center_with_ansi (src/drive_stuff/dsk.py:194-228): left-pad by
`(width - visible_length) // 2` spaces (empty for a negative count). -/
def center_with_ansi (string : List Char) (width : ℤ) : List Char :=
  List.replicate ((Int.fdiv (width - (get_visible_length string : ℤ)) 2).toNat) ' ' ++ string

/-- Color tier of a utilization percentage; the spec (§3, §4.3) calls the three values
Normal, Warning and Critical. -/
inductive ColorTier where
  | normal
  | warning
  | critical
deriving DecidableEq

/-- Embeds the color classification chain of format_drive_info (src/drive_stuff/dsk.py:340-345):
`used_percent >= CRITICAL_THRESHOLD` chooses Fore.RED (critical), an `elif` on
`used_percent >= WARNING_THRESHOLD` chooses Fore.YELLOW (warning), otherwise Fore.GREEN
(normal). -/
def classify (used_percent : ℚ) : ColorTier :=
  if used_percent ≥ CRITICAL_THRESHOLD then .critical
  else if used_percent ≥ WARNING_THRESHOLD then .warning
  else .normal

/-- The colorama code format_drive_info assigns to each tier (src/drive_stuff/dsk.py:340-345). -/
def tier_color : ColorTier → List Char
  | .critical => FORE_RED
  | .warning => FORE_YELLOW
  | .normal => FORE_GREEN

/-- Title line of the drive block (src/drive_stuff/dsk.py:359). -/
def drive_line (drive : List Char) : List Char :=
  FORE_CYAN ++ ("Drive ").data ++ drive ++ STYLE_RESET_ALL

/-- Total line of the drive block (src/drive_stuff/dsk.py:354,360): the GB value is
formatted to two decimals and right-justified to 8 characters. -/
def total_line (total : ℕ) : List Char :=
  FORE_LIGHTRED_EX ++ ("├─").data ++ FORE_RESET ++ ("  Total: ").data ++ FORE_BLUE
    ++ (pyRjust (pyFixed (bytes_to_gb total) 2) 8).data ++ (" GB").data ++ STYLE_RESET_ALL

/-- Used line of the drive block (src/drive_stuff/dsk.py:355,361). -/
def used_line (used : ℕ) : List Char :=
  FORE_LIGHTRED_EX ++ ("├─").data ++ FORE_RESET ++ ("   Used: ").data ++ FORE_YELLOW
    ++ (pyRjust (pyFixed (bytes_to_gb used) 2) 8).data ++ (" GB").data ++ STYLE_RESET_ALL

/-- Free line of the drive block (src/drive_stuff/dsk.py:356,362). -/
def free_line (free : ℕ) : List Char :=
  FORE_LIGHTRED_EX ++ ("└─").data ++ FORE_RESET ++ ("   Free: ").data ++ FORE_GREEN
    ++ (pyRjust (pyFixed (bytes_to_gb free) 2) 8).data ++ (" GB").data ++ STYLE_RESET_ALL

/-- Failure values of the external collaborator `shutil.disk_usage` (the spec's AccessError:
permission denied, path not found, or any other access error). -/
inductive AccessError where
  | permissionDenied
  | pathNotFound
  | other
deriving DecidableEq

/-- Python exceptions that escape format_drive_info in the model. -/
inductive PyExc where
  | unboundLocal (name : String)
deriving DecidableEq

/-- Embeds format_drive_info (src/drive_stuff/dsk.py:283-379). The collaborator result
`shutil.disk_usage(drive)` is passed in as `usage`; `terminal_width` is the result of
`os.get_terminal_size().columns` with none meaning the inner try falls back to
DEFAULT_CONSOLE_WIDTH.

Exception flow of the source, reproduced here: the whole body sits in a bare
`try/except`. If `disk_usage` raises, or `total == 0` makes `used / total` raise
ZeroDivisionError, control reaches the `except:` handler at line 377 before the local
`console_width` is assigned (that assignment happens later, at lines 348-351). The
handler's expression `center_with_ansi(..., console_width)` therefore raises
UnboundLocalError("console_width"); nothing after line 351 in the try block can raise, so
the handler can never run successfully. The model returns that exception as an
`Except.error`. On the success path the five assembled lines are returned: the centered
title, three tree lines sharing the left pad computed from the Total line's visible
length, and the centered colorized progress bar. -/
def format_drive_info (drive : List Char) (usage : Except AccessError (ℕ × ℕ × ℕ))
    (terminal_width : Option ℤ) : Except PyExc (List (List Char)) :=
  match usage with
  | .error _ => .error (.unboundLocal ("console_width"))
  | .ok (total, used, free) =>
    if total = 0 then .error (.unboundLocal ("console_width"))
    else
      let used_percent := ((used : ℚ) / (total : ℚ)) * 100
      let progress := get_progress_bar used_percent 20
      let color := tier_color (classify used_percent)
      let console_width := terminal_width.getD DEFAULT_CONSOLE_WIDTH
      let padding := (Int.fdiv (console_width - (get_visible_length (total_line total) : ℤ)) 2).toNat
      let left_padding := List.replicate padding ' '
      .ok [center_with_ansi (drive_line drive) console_width,
           left_padding ++ total_line total,
           left_padding ++ used_line used,
           left_padding ++ free_line free,
           center_with_ansi (color ++ progress ++ STYLE_RESET_ALL) console_width]

end Dsk

namespace Recycle

/-- Module constant BYTES_TO_MB of src/file_manipulation/recycle.py (line 70). -/
def BYTES_TO_MB : ℚ := 1024 * 1024

/-- Title line of the recycle-bin block (src/file_manipulation/recycle.py:231). -/
def recycle_title : List Char := INFO_COLOR ++ ("Recycle Bin").data ++ STYLE_RESET_ALL

/-- Items line of the recycle-bin block (src/file_manipulation/recycle.py:232). -/
def items_line (count : ℕ) : List Char :=
  FormattingUtils.create_tree_line
    (("Items:    ").data ++ ACCENT_COLOR ++ (toString count).data ++ STYLE_RESET_ALL) "first"

/-- Size line of the recycle-bin block (src/file_manipulation/recycle.py:233). -/
def size_line (size_bytes : ℚ) : List Char :=
  FormattingUtils.create_tree_line
    (("Size:     ").data ++ SUCCESS_COLOR
      ++ (FormattingUtils.format_size_simple size_bytes).data ++ STYLE_RESET_ALL) "last"

/-- Embeds the block-assembly portion of display_recycle_info
(src/file_manipulation/recycle.py:228-244): convert the reported megabytes back to bytes,
build the title and the two tree lines, compute one shared pad from
`(console_width - visible_length(max_line)) // 2` where max_line is the visually longest
tree line (Python's `max(items_line, size_line, key=get_visible_length)`, whose key value
is the max of the two visible lengths), and emit the centered title followed by the two
identically padded tree lines. The surrounding header/footer printing and the console-width
detection are I/O and are parameterised out. -/
def display_recycle_info (size_mb : ℚ) (count : ℕ) (console_width : ℤ) : List (List Char) :=
  let size_bytes := size_mb * BYTES_TO_MB
  let il := items_line count
  let sl := size_line size_bytes
  let max_vis : ℕ := max (FormattingUtils.get_visible_length il) (FormattingUtils.get_visible_length sl)
  let padding := (Int.fdiv (console_width - (max_vis : ℤ)) 2).toNat
  let left_padding := List.replicate padding ' '
  [FormattingUtils.center_with_ansi recycle_title console_width,
   left_padding ++ il,
   left_padding ++ sl]

end Recycle

/-- Modelled from the spec (§4.1, claim C4): the visible length obtained by removing every
ANSI CSI sequence of the general form ESC `[` params final-byte, with digit/semicolon
params and final byte anywhere in the `@`-`~` range. No source function implements exactly
this; it is the spec-side reference that claim C4 measures both implementations against. -/
def visible_length_csi_spec (text : List Char) : ℕ := (stripEsc csiSpecMatcher text).length

/-- Number of leading space characters of a line (used to state the block-padding claims). -/
def countLeadingSpaces : List Char → ℕ
  | [] => 0
  | c :: rest => if c = ' ' then countLeadingSpaces rest + 1 else 0

theorem toNat_fdiv_two_eq_toNat_max_tdiv (a : ℤ) :
    (Int.fdiv a 2).toNat = (max 0 (Int.tdiv a 2)).toNat := by
  rw [Int.fdiv_eq_ediv a (by norm_num : (0:ℤ) ≤ 2)]
  rcases le_or_lt 0 a with h | h
  · rw [Int.tdiv_eq_ediv h (by norm_num : (0:ℤ) ≤ 2)]
    rw [max_eq_right (Int.ediv_nonneg h (by norm_num))]
  · have ht : Int.tdiv a 2 ≤ 0 := by
      have h1 : (0:ℤ) ≤ -a := by omega
      have h2 : 0 ≤ Int.tdiv (-a) 2 := Int.tdiv_nonneg h1 (by norm_num)
      have h3 : Int.tdiv (-a) 2 = -Int.tdiv a 2 := Int.neg_tdiv a 2
      omega
    have he : a / 2 < 0 := Int.ediv_neg' h (by norm_num)
    rw [max_eq_left ht]
    omega

/-- C8: for every string and every width (including widths smaller than the visible
length), both center_with_ansi implementations return the text prefixed with exactly
max(0, (width - visible_length(text)) / 2) spaces under truncating integer division,
append no trailing padding, and are total (never raise). -/
theorem C8_center_pad (s : List Char) (w : ℤ) :
    Dsk.center_with_ansi s w =
      List.replicate (max 0 (Int.tdiv (w - (Dsk.get_visible_length s : ℤ)) 2)).toNat ' ' ++ s ∧
    FormattingUtils.center_with_ansi s w =
      List.replicate
        (max 0 (Int.tdiv (w - (FormattingUtils.get_visible_length s : ℤ)) 2)).toNat ' ' ++ s := by
  constructor
  · rw [Dsk.center_with_ansi, toNat_fdiv_two_eq_toNat_max_tdiv]
  · rw [FormattingUtils.center_with_ansi, toNat_fdiv_two_eq_toNat_max_tdiv]

/-- C7: the colorizer of format_drive_info classifies a utilization percentage as Critical
iff it is >= 90, as Warning iff it is in [70, 90), and as Normal iff it is below 70; the
boundaries are inclusive of the upper tier (90 is Critical, 70 is Warning, 69.999 is
Normal, 89.9999 is Warning). -/
theorem C7_threshold_colorizer (p : ℚ) :
    (Dsk.classify p = .critical ↔ 90 ≤ p) ∧
    (Dsk.classify p = .warning ↔ 70 ≤ p ∧ p < 90) ∧
    (Dsk.classify p = .normal ↔ p < 70) ∧
    Dsk.classify 90 = .critical ∧
    Dsk.classify 70 = .warning ∧
    Dsk.classify (69999 / 1000) = .normal ∧
    Dsk.classify (899999 / 10000) = .warning := by
  unfold Dsk.classify Dsk.CRITICAL_THRESHOLD Dsk.WARNING_THRESHOLD
  refine ⟨?_, ?_, ?_, ?_, ?_, ?_, ?_⟩
  · split_ifs with h1 h2 <;> simp <;> linarith
  · split_ifs with h1 h2
    · simp
      intro h3
      linarith
    · have h1' : p < 90 := lt_of_not_ge h1
      simp
      exact ⟨h2, h1'⟩
    · have h2' : p < 70 := lt_of_not_ge h2
      simp
      intro h3
      linarith
  · split_ifs with h1 h2 <;> simp <;> linarith
  · norm_num
  · norm_num
  · norm_num
  · norm_num

theorem str_space_append (a u v : String) (h : " " ++ u = v) :
    a ++ " " ++ u = a ++ v := by
  rw [String.append_assoc, h]

/-- C10: for every negative byte count both size formatters return at the first unit B
(the loop guard `size_bytes < 1024` is already true), rendering the negative number
verbatim; in particular format_size(-2048) = "-2048.00 B" and
format_size_simple(-2048) = "-2048 B". Negative input is neither clamped nor rejected,
and both functions are total. -/
theorem C10_negative_sizes (q : ℚ) (h : q < 0) :
    FormattingUtils.format_size q 2 = pyFixed q 2 ++ " B" ∧
    FormattingUtils.format_size_simple q = pyRoundedStr q ++ " B" ∧
    FormattingUtils.format_size (-2048) 2 = "-2048.00 B" ∧
    FormattingUtils.format_size_simple (-2048) = "-2048 B" := by
  have hq : q < 1024 := lt_trans h (by norm_num)
  refine ⟨?_, ?_, ?_, ?_⟩
  · simp only [FormattingUtils.format_size, FormattingUtils.scale_loop, if_pos hq]
    exact str_space_append _ _ _ (by decide)
  · simp only [FormattingUtils.format_size_simple, FormattingUtils.scale_loop, if_pos hq]
    exact str_space_append _ _ _ (by decide)
  · with_unfolding_all decide
  · with_unfolding_all decide

/-- Witness for C10 at the concrete input -2048. -/
theorem C10_negative_sizes_witness :
    (-2048 : ℚ) < 0 ∧ FormattingUtils.format_size (-2048) 2 = pyFixed (-2048) 2 ++ " B" :=
  ⟨by norm_num, (C10_negative_sizes (-2048) (by norm_num)).1⟩

theorem scale_loop_eq (render : ℚ → String) (q : ℚ) :
    FormattingUtils.scale_loop render q ["B", "KB", "MB", "GB", "TB"] =
      if q < 1024 then render q ++ " B"
      else if q < 1024 ^ 2 then render (q / 1024) ++ " KB"
      else if q < 1024 ^ 3 then render (q / 1024 ^ 2) ++ " MB"
      else if q < 1024 ^ 4 then render (q / 1024 ^ 3) ++ " GB"
      else if q < 1024 ^ 5 then render (q / 1024 ^ 4) ++ " TB"
      else render (q / 1024 ^ 5) ++ " PB" := by
  have hpos : (0:ℚ) < 1024 := by norm_num
  simp only [FormattingUtils.scale_loop]
  by_cases h1 : q < 1024
  · rw [if_pos h1, if_pos h1]
    exact str_space_append _ _ _ (by decide)
  · rw [if_neg h1, if_neg h1]
    by_cases h2 : q < 1024 ^ 2
    · have l2 : q / 1024 < 1024 := by rw [div_lt_iff hpos]; nlinarith
      rw [if_pos l2, if_pos h2]
      exact str_space_append _ _ _ (by decide)
    · have l2 : ¬ q / 1024 < 1024 := by
        rw [not_lt] at h2 ⊢
        rw [le_div_iff hpos]
        nlinarith
      rw [if_neg l2, if_neg h2]
      by_cases h3 : q < 1024 ^ 3
      · have l3 : q / 1024 / 1024 < 1024 := by
          rw [div_div, div_lt_iff (by norm_num : (0:ℚ) < 1024 * 1024)]
          nlinarith
        rw [if_pos l3, if_pos h3, div_div]
        norm_num
        exact str_space_append _ _ _ (by decide)
      · have l3 : ¬ q / 1024 / 1024 < 1024 := by
          rw [not_lt] at h3 ⊢
          rw [div_div, le_div_iff (by norm_num : (0:ℚ) < 1024 * 1024)]
          nlinarith
        rw [if_neg l3, if_neg h3]
        by_cases h4 : q < 1024 ^ 4
        · have l4 : q / 1024 / 1024 / 1024 < 1024 := by
            rw [div_div, div_div, div_lt_iff (by norm_num : (0:ℚ) < 1024 * (1024 * 1024))]
            nlinarith
          rw [if_pos l4, if_pos h4, div_div, div_div]
          norm_num
          exact str_space_append _ _ _ (by decide)
        · have l4 : ¬ q / 1024 / 1024 / 1024 < 1024 := by
            rw [not_lt] at h4 ⊢
            rw [div_div, div_div, le_div_iff (by norm_num : (0:ℚ) < 1024 * (1024 * 1024))]
            nlinarith
          rw [if_neg l4, if_neg h4]
          by_cases h5 : q < 1024 ^ 5
          · have l5 : q / 1024 / 1024 / 1024 / 1024 < 1024 := by
              rw [div_div, div_div, div_div,
                div_lt_iff (by norm_num : (0:ℚ) < 1024 * (1024 * (1024 * 1024)))]
              nlinarith
            rw [if_pos l5, if_pos h5, div_div, div_div, div_div]
            norm_num
            exact str_space_append _ _ _ (by decide)
          · have l5 : ¬ q / 1024 / 1024 / 1024 / 1024 < 1024 := by
              rw [not_lt] at h5 ⊢
              rw [div_div, div_div, div_div,
                le_div_iff (by norm_num : (0:ℚ) < 1024 * (1024 * (1024 * 1024)))]
              nlinarith
            rw [if_neg l5, if_neg h5, div_div, div_div, div_div, div_div]
            norm_num

/-- C5: both size formatters scale by repeated division by 1024 through B, KB, MB, GB, TB
in order, stopping at the first unit where the scaled value is below 1024 and clamping to
PB for arbitrarily large input, and produce the number and the unit separated by exactly
one space; in particular format_size(0) with two decimals is "0.00 B",
format_size(1073741824) is "1.00 GB", and format_size_simple(1536) is "2 KB". -/
theorem C5_size_formatter :
    FormattingUtils.format_size 0 2 = "0.00 B" ∧
    FormattingUtils.format_size 1073741824 2 = "1.00 GB" ∧
    FormattingUtils.format_size_simple 1536 = "2 KB" ∧
    (∀ q : ℚ, FormattingUtils.format_size q 2 =
      if q < 1024 then pyFixed q 2 ++ " B"
      else if q < 1024 ^ 2 then pyFixed (q / 1024) 2 ++ " KB"
      else if q < 1024 ^ 3 then pyFixed (q / 1024 ^ 2) 2 ++ " MB"
      else if q < 1024 ^ 4 then pyFixed (q / 1024 ^ 3) 2 ++ " GB"
      else if q < 1024 ^ 5 then pyFixed (q / 1024 ^ 4) 2 ++ " TB"
      else pyFixed (q / 1024 ^ 5) 2 ++ " PB") ∧
    (∀ q : ℚ, FormattingUtils.format_size_simple q =
      if q < 1024 then pyRoundedStr q ++ " B"
      else if q < 1024 ^ 2 then pyRoundedStr (q / 1024) ++ " KB"
      else if q < 1024 ^ 3 then pyRoundedStr (q / 1024 ^ 2) ++ " MB"
      else if q < 1024 ^ 4 then pyRoundedStr (q / 1024 ^ 3) ++ " GB"
      else if q < 1024 ^ 5 then pyRoundedStr (q / 1024 ^ 4) ++ " TB"
      else pyRoundedStr (q / 1024 ^ 5) ++ " PB") := by
  refine ⟨?_, ?_, ?_, ?_, ?_⟩
  · with_unfolding_all decide
  · with_unfolding_all decide
  · with_unfolding_all decide
  · intro q
    exact scale_loop_eq (fun v => pyFixed v 2) q
  · intro q
    exact scale_loop_eq pyRoundedStr q

/-- C1 counterexample: the source never clamps the percentage. At percent 150 and width
20, `int(20 * 150 / 100) = 30`, so both renderers emit 30 filled glyphs and an overall
bar of 30 glyphs, not the claimed exactly-20 glyphs with at most 20 filled. -/
theorem C1_counterexample :
    (FormattingUtils.get_progress_bar 150 20).length = 30 ∧
    (FormattingUtils.get_progress_bar 150 20).count '█' = 30 ∧
    (Dsk.get_progress_bar 150 20).length = 30 ∧
    (30 : ℕ) ≠ 20 := by
  refine ⟨?_, ?_, ?_, by norm_num⟩
  · with_unfolding_all decide
  · with_unfolding_all decide
  · with_unfolding_all decide

/-- C1 amended: for every width and every percent within [0, 100] both progress-bar
renderers return exactly width glyphs, floor(width * percent / 100) filled glyphs followed
by empty glyphs in the remaining positions (so the filled count never exceeds width there);
out-of-range percents are not clamped by the code (see the counterexample). -/
theorem C1_progress_bar_amended (p : ℚ) (w : ℕ) (h0 : 0 ≤ p) (h1 : p ≤ 100) :
    FormattingUtils.get_progress_bar p w =
      List.replicate (⌊(w : ℚ) * p / 100⌋).toNat '█'
        ++ List.replicate (w - (⌊(w : ℚ) * p / 100⌋).toNat) '░' ∧
    (FormattingUtils.get_progress_bar p w).length = w ∧
    (⌊(w : ℚ) * p / 100⌋).toNat ≤ w ∧
    Dsk.get_progress_bar p w = FormattingUtils.get_progress_bar p w := by
  have hq : (0:ℚ) ≤ (w : ℚ) * p / 100 := by positivity
  have hf0 : 0 ≤ ⌊(w : ℚ) * p / 100⌋ := Int.floor_nonneg.mpr hq
  have hle : (w : ℚ) * p / 100 ≤ (w : ℚ) := by
    rw [div_le_iff (by norm_num : (0:ℚ) < 100)]
    nlinarith [Nat.cast_nonneg (α := ℚ) w]
  have hfw : ⌊(w : ℚ) * p / 100⌋ ≤ (w : ℤ) := by
    have h2 := Int.floor_le_floor hle
    simpa using h2
  have htrunc : pyTrunc ((w : ℚ) * p / 100) = ⌊(w : ℚ) * p / 100⌋ := by
    unfold pyTrunc
    rw [if_pos hq]
  have hcnt : (((w : ℤ)) - ⌊(w : ℚ) * p / 100⌋).toNat = w - (⌊(w : ℚ) * p / 100⌋).toNat := by
    omega
  refine ⟨?_, ?_, by omega, ?_⟩
  · simp only [FormattingUtils.get_progress_bar, Int.cast_natCast, htrunc, hcnt]
  · simp only [FormattingUtils.get_progress_bar, Int.cast_natCast, htrunc, hcnt,
      List.length_append, List.length_replicate]
    omega
  · simp only [FormattingUtils.get_progress_bar, Dsk.get_progress_bar,
      Dsk.PROGRESS_BAR_FILLED, Dsk.PROGRESS_BAR_EMPTY]

/-- Witness for C1 amended at percent 50 and width 20. -/
theorem C1_progress_bar_witness :
    (0:ℚ) ≤ 50 ∧ (50:ℚ) ≤ 100 ∧ (FormattingUtils.get_progress_bar 50 20).length = 20 :=
  ⟨by norm_num, by norm_num, (C1_progress_bar_amended 50 20 (by norm_num) (by norm_num)).2.1⟩

theorem stripEsc_replicate_space (m : EscMatcher) (n : ℕ) (s : List Char) :
    stripEsc m (List.replicate n ' ' ++ s) = List.replicate n ' ' ++ stripEsc m s := by
  induction n with
  | zero => simp
  | succ k ih =>
    rw [List.replicate_succ, List.cons_append, stripEsc_cons_other m ' ' _ (by decide), ih]
    simp [List.replicate_succ]

theorem center_pad_core_iff (v : ℕ) (w : ℤ) :
    ((Int.fdiv (w - (((Int.fdiv (w - (v:ℤ)) 2).toNat + v : ℕ) : ℤ)) 2).toNat = 0) ↔
      w - (v:ℤ) ≤ 2 := by
  rw [Int.fdiv_eq_ediv _ (by norm_num : (0:ℤ) ≤ 2), Int.fdiv_eq_ediv _ (by norm_num : (0:ℤ) ≤ 2)]
  push_cast
  omega

/-- C9 counterexample: centering is not idempotent. With text "HI" (visible length 2) and
width 20, the first centering adds 9 spaces; re-centering the 11-visible-character result
adds 4 more, so centering twice differs from centering once, in both implementations. -/
theorem C9_counterexample :
    FormattingUtils.center_with_ansi
        (FormattingUtils.center_with_ansi (("HI").data) 20) 20 ≠
      FormattingUtils.center_with_ansi (("HI").data) 20 ∧
    Dsk.center_with_ansi (Dsk.center_with_ansi (("HI").data) 20) 20 ≠
      Dsk.center_with_ansi (("HI").data) 20 := by
  constructor
  · with_unfolding_all decide
  · with_unfolding_all decide

/-- C9 amended: centering twice equals centering once exactly when the leftover width
(width minus the visible length) is at most 2 -- i.e. when the first pass added no spaces
or the remaining centering gap is below the next division threshold. In general the second
pass adds (width - visible_length(once-centered)) // 2 further spaces, so centering is
cumulative, not idempotent. -/
theorem C9_center_idempotence_amended (s : List Char) (w : ℤ) :
    (FormattingUtils.center_with_ansi (FormattingUtils.center_with_ansi s w) w =
        FormattingUtils.center_with_ansi s w ↔
      w - (FormattingUtils.get_visible_length s : ℤ) ≤ 2) ∧
    (Dsk.center_with_ansi (Dsk.center_with_ansi s w) w = Dsk.center_with_ansi s w ↔
      w - (Dsk.get_visible_length s : ℤ) ≤ 2) := by
  have core : ∀ (m : EscMatcher),
      (List.replicate ((Int.fdiv (w - ((stripEsc m
            (List.replicate ((Int.fdiv (w - ((stripEsc m s).length : ℤ)) 2).toNat) ' '
              ++ s)).length : ℤ)) 2).toNat) ' '
          ++ (List.replicate ((Int.fdiv (w - ((stripEsc m s).length : ℤ)) 2).toNat) ' ' ++ s) =
        List.replicate ((Int.fdiv (w - ((stripEsc m s).length : ℤ)) 2).toNat) ' ' ++ s) ↔
      w - ((stripEsc m s).length : ℤ) ≤ 2 := by
    intro m
    rw [stripEsc_replicate_space]
    rw [List.length_append, List.length_replicate]
    constructor
    · intro h
      have hlen := congrArg List.length h
      simp only [List.length_append, List.length_replicate] at hlen
      have hzero : ((Int.fdiv (w - ((((Int.fdiv (w - ((stripEsc m s).length : ℤ)) 2).toNat
          + (stripEsc m s).length : ℕ)) : ℤ)) 2).toNat = 0) := by omega
      rw [← center_pad_core_iff]
      exact_mod_cast hzero
    · intro h
      have hzero := (center_pad_core_iff ((stripEsc m s).length) w).mpr h
      push_cast at hzero ⊢
      rw [hzero]
      simp
  exact ⟨core fuMatcher, core dskMatcher⟩

theorem stripEsc_no_esc (m : EscMatcher) (s : List Char) (hs : ∀ c ∈ s, c ≠ '\x1b') :
    stripEsc m s = s := by
  induction s with
  | nil => rfl
  | cons c rest ih =>
    rw [stripEsc_cons_other m c rest (hs c (by simp))]
    rw [ih (fun x hx => hs x (by simp [hx]))]

theorem isParamByte_of_isDigitSemi (c : Char) (hc : isDigitSemi c = true) :
    isParamByte c = true := by
  simp only [isDigitSemi, Bool.or_eq_true, Bool.and_eq_true, decide_eq_true_eq] at hc
  simp only [isParamByte, Bool.and_eq_true, decide_eq_true_eq]
  rcases hc with ⟨h1, h2⟩ | h3
  · omega
  · subst h3
    decide

theorem not_isParamByte_of_isFinalByte (c : Char) (hc : isFinalByte c = true) :
    isParamByte c = false := by
  simp only [isFinalByte, Bool.and_eq_true, decide_eq_true_eq] at hc
  simp only [isParamByte, Bool.and_eq_false_iff, decide_eq_false_iff_not]
  omega

theorem not_isIntermediateByte_of_isFinalByte (c : Char) (hc : isFinalByte c = true) :
    isIntermediateByte c = false := by
  simp only [isFinalByte, Bool.and_eq_true, decide_eq_true_eq] at hc
  simp only [isIntermediateByte, Bool.and_eq_false_iff, decide_eq_false_iff_not]
  omega

theorem dsk_strip_full_csi (params : List Char) (f : Char) (rest : List Char)
    (hp : ∀ c ∈ params, isDigitSemi c = true) (hf : isFinalByte f = true) :
    stripEsc dskMatcher ('\x1b' :: '[' :: (params ++ f :: rest)) = stripEsc dskMatcher rest := by
  apply stripEsc_cons_esc_some
  show dskMatchFn ('[' :: (params ++ f :: rest)) = some rest
  have h1 : List.dropWhile isParamByte (params ++ f :: rest) = f :: rest := by
    rw [List.dropWhile_append_of_pos (fun c hc => isParamByte_of_isDigitSemi c (hp c hc)),
      List.dropWhile_cons, if_neg (by simp [not_isParamByte_of_isFinalByte f hf])]
  have h2 : List.dropWhile isIntermediateByte (f :: rest) = f :: rest := by
    rw [List.dropWhile_cons, if_neg (by simp [not_isIntermediateByte_of_isFinalByte f hf])]
  simp only [dskMatchFn, if_neg (by decide : ¬ isTwoCharEscByte '[' = true), if_pos rfl,
    h1, h2, hf, if_true]

/-- C4 counterexample: the claim says visible_length removes every CSI sequence with any
final byte in the @-~ range. ConsoleFormatter.get_visible_length only removes final bytes
m, G and K, so the cursor-up code in "\x1b[1A" is counted: it reports 4 where the claimed
CSI-stripping length is 0. (dsk.get_visible_length disagrees with the claim in the other
direction: it also removes non-CSI two-character escapes such as "\x1bM", reporting 0 where
the claimed CSI-only stripping gives 2.) -/
theorem C4_counterexample :
    FormattingUtils.get_visible_length (("\x1b[1A").data) = 4 ∧
    visible_length_csi_spec (("\x1b[1A").data) = 0 ∧
    Dsk.get_visible_length (("\x1bM").data) = 0 ∧
    visible_length_csi_spec (("\x1bM").data) = 2 := by
  refine ⟨?_, ?_, ?_, ?_⟩ <;> with_unfolding_all decide

/-- C4 amended: on escape-free strings every implementation returns the raw character
count, and both return 2 on "\x1b[31mHI\x1b[0m"; dsk.get_visible_length does remove every
CSI sequence whose params are digits/semicolons and whose final byte is anywhere in @-~,
while ConsoleFormatter.get_visible_length only removes those with final byte m, G or K
(counterexample above). -/
theorem C4_visible_length_amended (s params rest : List Char) (f : Char)
    (hs : ∀ c ∈ s, c ≠ '\x1b')
    (hp : ∀ c ∈ params, isDigitSemi c = true)
    (hf : isFinalByte f = true) :
    FormattingUtils.get_visible_length s = s.length ∧
    Dsk.get_visible_length s = s.length ∧
    visible_length_csi_spec s = s.length ∧
    FormattingUtils.get_visible_length (("\x1b[31mHI\x1b[0m").data) = 2 ∧
    Dsk.get_visible_length (("\x1b[31mHI\x1b[0m").data) = 2 ∧
    Dsk.get_visible_length ('\x1b' :: '[' :: (params ++ f :: rest)) =
      Dsk.get_visible_length rest := by
  refine ⟨?_, ?_, ?_, ?_, ?_, ?_⟩
  · unfold FormattingUtils.get_visible_length
    rw [stripEsc_no_esc _ _ hs]
  · unfold Dsk.get_visible_length
    rw [stripEsc_no_esc _ _ hs]
  · unfold visible_length_csi_spec
    rw [stripEsc_no_esc _ _ hs]
  · with_unfolding_all decide
  · with_unfolding_all decide
  · unfold Dsk.get_visible_length
    rw [dsk_strip_full_csi params f rest hp hf]

/-- Witness for C4 amended: escape-free "HI" has visible length 2, and dsk strips the
cursor-up CSI sequence with params "31" and final byte A. -/
theorem C4_visible_length_witness :
    FormattingUtils.get_visible_length (("HI").data) = 2 ∧
    Dsk.get_visible_length ('\x1b' :: '[' :: ((['3', '1'] ++ 'A' :: ['Z']))) =
      Dsk.get_visible_length (['Z']) := by
  have h := C4_visible_length_amended (("HI").data) ['3', '1'] ['Z'] 'A'
    (by decide) (by decide) (by decide)
  exact ⟨h.1, h.2.2.2.2.2⟩

/-- C2: evaluation of the code at the failing input. When the collaborator reports
total = 0, `used_percent = (used / total) * 100` raises ZeroDivisionError; the bare
`except:` handler then evaluates `center_with_ansi(..., console_width)` but the local
console_width has not been assigned yet (its assignment sits later in the try block), so
the handler raises UnboundLocalError, which propagates out of format_drive_info. There is
no total > 0 guard in the source and used_percent never defaults to 0. -/
theorem C2_zero_total_raises (drive : List Char) (used free : ℕ) (tw : Option ℤ) :
    Dsk.format_drive_info drive (.ok (0, used, free)) tw =
      .error (.unboundLocal ("console_width")) := rfl

/-- C3: evaluation of the code at the failing input. For every access error reported by
the collaborator (permission denied, path not found, or any other), the bare `except:`
handler of format_drive_info evaluates `center_with_ansi(..., console_width)` with the
local console_width still unassigned, so instead of the documented single centered error
line the function raises UnboundLocalError; main() has no try around its per-drive loop,
so the exception aborts the remaining volumes. -/
theorem C3_access_error_raises (drive : List Char) (e : Dsk.AccessError) (tw : Option ℤ) :
    Dsk.format_drive_info drive (.error e) tw =
      .error (.unboundLocal ("console_width")) := rfl

theorem countLeadingSpaces_replicate_append (p : ℕ) (l : List Char) :
    countLeadingSpaces (List.replicate p ' ' ++ l) = p + countLeadingSpaces l := by
  induction p with
  | zero => simp
  | succ k ih =>
    rw [List.replicate_succ, List.cons_append]
    show (if ' ' = ' ' then countLeadingSpaces (List.replicate k ' ' ++ l) + 1 else 0) =
      k + 1 + countLeadingSpaces l
    rw [if_pos rfl, ih]
    omega

theorem countLeadingSpaces_total_line (t : ℕ) :
    countLeadingSpaces (Dsk.total_line t) = 0 := rfl

theorem countLeadingSpaces_used_line (t : ℕ) :
    countLeadingSpaces (Dsk.used_line t) = 0 := rfl

theorem countLeadingSpaces_free_line (t : ℕ) :
    countLeadingSpaces (Dsk.free_line t) = 0 := rfl

theorem countLeadingSpaces_items_line (c : ℕ) :
    countLeadingSpaces (Recycle.items_line c) = 0 := rfl

theorem countLeadingSpaces_size_line (q : ℚ) :
    countLeadingSpaces (Recycle.size_line q) = 0 := rfl

/-- C6 counterexample: the title line is centered independently, not given the shared tree
pad. For drive "C:" with total = used + free = 1 GiB at width 80, the three tree lines all
get the shared left pad 29 = (80 - 22) // 2 computed from the Total line, but the title
line gets 36 = (80 - 8) // 2 from its own visible length (and the bar line gets 30), so
one shared pad is not applied to every tree line plus the title line. -/
theorem C6_counterexample :
    (Dsk.format_drive_info (("C:").data) (.ok (1073741824, 536870912, 536870912))
        (some 80)).map (fun ls => ls.map countLeadingSpaces) =
      .ok [36, 29, 29, 29, 30] ∧ (36 : ℕ) ≠ 29 := by
  refine ⟨?_, by norm_num⟩
  with_unfolding_all rfl

/-- C6 amended: in format_drive_info a single shared left pad equal to
(width - visible_length(total_line)) // 2 (the Total line's own visible length, not a
maximum over the block) is applied to the three tree lines only, while the title line and
the bar line are centered independently; in display_recycle_info the shared pad is
(width - max of the two tree lines' visible lengths) // 2, applied to the two tree lines
only, with the title again centered independently. -/
theorem C6_block_padding_amended (drive : List Char) (total used free : ℕ) (size_mb : ℚ)
    (count : ℕ) (w : ℤ) (h : total ≠ 0) :
    (∃ ls, Dsk.format_drive_info drive (.ok (total, used, free)) (some w) = .ok ls ∧
      ls.length = 5 ∧
      ls[0]! = Dsk.center_with_ansi (Dsk.drive_line drive) w ∧
      countLeadingSpaces ls[1]! =
        (Int.fdiv (w - (Dsk.get_visible_length (Dsk.total_line total) : ℤ)) 2).toNat ∧
      countLeadingSpaces ls[2]! = countLeadingSpaces ls[1]! ∧
      countLeadingSpaces ls[3]! = countLeadingSpaces ls[1]!) ∧
    (Recycle.display_recycle_info size_mb count w).length = 3 ∧
    (Recycle.display_recycle_info size_mb count w)[0]! =
      FormattingUtils.center_with_ansi Recycle.recycle_title w ∧
    countLeadingSpaces ((Recycle.display_recycle_info size_mb count w)[1]!) =
      (Int.fdiv (w - (((max (FormattingUtils.get_visible_length (Recycle.items_line count))
        (FormattingUtils.get_visible_length
          (Recycle.size_line (size_mb * Recycle.BYTES_TO_MB))) : ℕ)) : ℤ)) 2).toNat ∧
    countLeadingSpaces ((Recycle.display_recycle_info size_mb count w)[2]!) =
      countLeadingSpaces ((Recycle.display_recycle_info size_mb count w)[1]!) := by
  constructor
  · refine ⟨[Dsk.center_with_ansi (Dsk.drive_line drive) w,
      List.replicate
        ((Int.fdiv (w - (Dsk.get_visible_length (Dsk.total_line total) : ℤ)) 2).toNat) ' '
        ++ Dsk.total_line total,
      List.replicate
        ((Int.fdiv (w - (Dsk.get_visible_length (Dsk.total_line total) : ℤ)) 2).toNat) ' '
        ++ Dsk.used_line used,
      List.replicate
        ((Int.fdiv (w - (Dsk.get_visible_length (Dsk.total_line total) : ℤ)) 2).toNat) ' '
        ++ Dsk.free_line free,
      Dsk.center_with_ansi
        (Dsk.tier_color (Dsk.classify (((used : ℚ) / (total : ℚ)) * 100))
          ++ Dsk.get_progress_bar (((used : ℚ) / (total : ℚ)) * 100) 20
          ++ STYLE_RESET_ALL) w], ?_, rfl, rfl, ?_, ?_, ?_⟩
    · unfold Dsk.format_drive_info
      dsimp only
      rw [if_neg h]
      rfl
    · show countLeadingSpaces (List.replicate
          ((Int.fdiv (w - (Dsk.get_visible_length (Dsk.total_line total) : ℤ)) 2).toNat) ' '
          ++ Dsk.total_line total) = _
      rw [countLeadingSpaces_replicate_append, countLeadingSpaces_total_line]
      omega
    · show countLeadingSpaces (List.replicate
          ((Int.fdiv (w - (Dsk.get_visible_length (Dsk.total_line total) : ℤ)) 2).toNat) ' '
          ++ Dsk.used_line used) =
        countLeadingSpaces (List.replicate
          ((Int.fdiv (w - (Dsk.get_visible_length (Dsk.total_line total) : ℤ)) 2).toNat) ' '
          ++ Dsk.total_line total)
      rw [countLeadingSpaces_replicate_append, countLeadingSpaces_replicate_append,
        countLeadingSpaces_used_line, countLeadingSpaces_total_line]
    · show countLeadingSpaces (List.replicate
          ((Int.fdiv (w - (Dsk.get_visible_length (Dsk.total_line total) : ℤ)) 2).toNat) ' '
          ++ Dsk.free_line free) =
        countLeadingSpaces (List.replicate
          ((Int.fdiv (w - (Dsk.get_visible_length (Dsk.total_line total) : ℤ)) 2).toNat) ' '
          ++ Dsk.total_line total)
      rw [countLeadingSpaces_replicate_append, countLeadingSpaces_replicate_append,
        countLeadingSpaces_free_line, countLeadingSpaces_total_line]
  · refine ⟨rfl, rfl, ?_, ?_⟩
    · show countLeadingSpaces (List.replicate
          ((Int.fdiv (w - (((max (FormattingUtils.get_visible_length (Recycle.items_line count))
            (FormattingUtils.get_visible_length
              (Recycle.size_line (size_mb * Recycle.BYTES_TO_MB))) : ℕ)) : ℤ)) 2).toNat) ' '
          ++ Recycle.items_line count) = _
      rw [countLeadingSpaces_replicate_append, countLeadingSpaces_items_line]
      omega
    · show countLeadingSpaces (List.replicate
          ((Int.fdiv (w - (((max (FormattingUtils.get_visible_length (Recycle.items_line count))
            (FormattingUtils.get_visible_length
              (Recycle.size_line (size_mb * Recycle.BYTES_TO_MB))) : ℕ)) : ℤ)) 2).toNat) ' '
          ++ Recycle.size_line (size_mb * Recycle.BYTES_TO_MB)) =
        countLeadingSpaces (List.replicate
          ((Int.fdiv (w - (((max (FormattingUtils.get_visible_length (Recycle.items_line count))
            (FormattingUtils.get_visible_length
              (Recycle.size_line (size_mb * Recycle.BYTES_TO_MB))) : ℕ)) : ℤ)) 2).toNat) ' '
          ++ Recycle.items_line count)
      rw [countLeadingSpaces_replicate_append, countLeadingSpaces_replicate_append,
        countLeadingSpaces_size_line, countLeadingSpaces_items_line]

/-- Witness for C6 amended at a concrete volume and trash report. -/
theorem C6_block_padding_witness :
    (1073741824 : ℕ) ≠ 0 ∧
    (∃ ls, Dsk.format_drive_info (("C:").data) (.ok (1073741824, 536870912, 536870912))
        (some 80) = .ok ls ∧ ls.length = 5) ∧
    (Recycle.display_recycle_info 2 3 80).length = 3 := by
  have h := C6_block_padding_amended (("C:").data) 1073741824 536870912 536870912 2 3 80
    (by norm_num)
  obtain ⟨⟨ls, h1, h2, _⟩, h3, _⟩ := h
  exact ⟨by norm_num, ⟨ls, h1, h2⟩, h3⟩

/-- Witness for C7 at the concrete boundary input 90. -/
theorem C7_threshold_colorizer_witness : Dsk.classify 90 = .critical :=
  (C7_threshold_colorizer 90).2.2.2.1

/-- Witness for C8 at the concrete text "HI" and width 20. -/
theorem C8_center_pad_witness :
    Dsk.center_with_ansi (("HI").data) 20 =
      List.replicate
        (max 0 (Int.tdiv (20 - (Dsk.get_visible_length (("HI").data) : ℤ)) 2)).toNat ' '
        ++ ("HI").data :=
  (C8_center_pad (("HI").data) 20).1

/-- Witness for C9 amended: at width 2 the text "HI" leaves no centering gap, so centering
twice equals centering once there. -/
theorem C9_center_idempotence_witness :
    FormattingUtils.center_with_ansi (FormattingUtils.center_with_ansi (("HI").data) 2) 2 =
      FormattingUtils.center_with_ansi (("HI").data) 2 :=
  ((C9_center_idempotence_amended (("HI").data) 2).1).mpr (by with_unfolding_all decide)

/-- Witness for C2 at a concrete zero-total report. -/
theorem C2_zero_total_raises_witness :
    Dsk.format_drive_info (("C:").data) (.ok (0, 5, 5)) (some 80) =
      .error (.unboundLocal ("console_width")) :=
  C2_zero_total_raises (("C:").data) 5 5 (some 80)

/-- Witness for C3 at a concrete failed volume. -/
theorem C3_access_error_raises_witness :
    Dsk.format_drive_info (("Z:").data) (.error .pathNotFound) (some 80) =
      .error (.unboundLocal ("console_width")) :=
  C3_access_error_raises (("Z:").data) .pathNotFound (some 80)
